import Mathlib

/-!
Verification development for the alx-polly polling application.

The definitions below are a shallow embedding of the authorization,
vote-integrity, validation and rate-limiting core of the repository:

* `src/app/lib/utils/error-utils.ts`        — `AppError`, `sanitizeInput`
* `src/app/lib/services/poll-service.ts`    — `PollService.create/getById/submitVote/delete`
* `src/app/lib/actions/poll-actions.ts`     — `createPoll`, `getPollById`, `updatePoll`
* `src/app/lib/services/auth-service.ts`    — `AuthService.login/register`
* `src/app/lib/utils/rate-limiter.ts`       — `RateLimiter.isLimited/increment/reset`
* `src/unnamed/part_005` (config/constants) — `AUTH`/`POLLS` constants

Every response of the external Supabase data store (row lookups, the
existing-votes query, insert/update/delete outcomes) is passed to the
embedded functions as an explicit parameter, and each embedded operation
reports, besides its result, whether it issued a mutation to the store.
-/

namespace AlxPolly

/-- `AppError` from src/app/lib/utils/error-utils.ts. The optional `code`
field of the source constructor is never supplied at the call sites we
model, so it is omitted here. The source default status is 400. -/
structure AppError where
  message : String
  statusCode : Nat
deriving DecidableEq, Repr

/-- Result of a service call: the source either returns normally or throws
an `AppError` (normalized by `handleError`). -/
inductive CallOutcome where
  | ok
  | err (e : AppError)
deriving DecidableEq, Repr

/-- A Supabase/PostgREST error object: `code` and `message` fields, as
inspected by `PollService.submitVote` lines 257-265. -/
structure DbError where
  code : String
  message : String
deriving DecidableEq, Repr

/-- The authenticated user as read from `supabase.auth.getUser()`:
`user.id` and `user.user_metadata?.role`. -/
structure User where
  id : String
  role : Option String
deriving DecidableEq, Repr

/-- A poll option row (src/app/lib/types): `id`, `text`, `votes`. -/
structure PollOption where
  id : String
  text : String
  votes : Nat
deriving DecidableEq, Repr

/-- The `settings` object stored on a poll. -/
structure PollSettings where
  allowMultipleVotes : Bool
  requireAuthentication : Bool
deriving DecidableEq, Repr

/-- A poll row. `endDate` is a millisecond timestamp when set, `settings`
may be absent (older rows), `isPrivate` embeds the `private` column read
by the legacy `getPollById` (the name `private` is reserved in Lean). -/
structure Poll where
  id : String
  question : String
  options : List PollOption
  createdBy : String
  endDate : Option Int
  isPrivate : Bool
  settings : Option PollSettings
deriving DecidableEq, Repr

/-- A persisted vote row as inserted by `PollService.submitVote`. -/
structure Vote where
  pollId : String
  userId : Option String
  optionId : String
deriving DecidableEq, Repr

/-- `poll.settings?.requireAuthentication ?? true`
(poll-service.ts line 210). -/
def Poll.requiresAuth (p : Poll) : Bool :=
  (p.settings.map PollSettings.requireAuthentication).getD true

/-- `poll.settings?.allowMultipleVotes` under JavaScript truthiness: an
absent `settings` object yields `undefined`, which is falsy
(poll-service.ts line 221). -/
def Poll.allowsMultipleVotes (p : Poll) : Bool :=
  (p.settings.map PollSettings.allowMultipleVotes).getD false

/-- `poll.endDate && new Date() > new Date(poll.endDate)`
(poll-service.ts line 216), `now` being the current time in ms. -/
def pollEnded (p : Poll) (now : Int) : Bool :=
  match p.endDate with
  | none => false
  | some d => decide (d < now)

/-- `String.prototype.includes` as used on Supabase error messages. -/
def strIncludes (s sub : String) : Bool :=
  decide (List.IsInfix sub.toList s.toList)

/-- `Number.isInteger` on a JavaScript number, numbers being modelled as
rationals: integral iff the reduced denominator is 1. -/
def Number.isInteger (q : ℚ) : Bool :=
  q.den == 1

/-- The PostgREST message surfaced when `.single()` matches no row; a
missing poll makes `PollService.getById` throw `AppError(error.message)`
with the default status 400, so `submitVote`'s own
`if (!poll) 404` branch is unreachable. -/
def pgNoRowsMessage : String :=
  "JSON object requested, multiple (or no) rows returned"

/-- Observable outcome of one `PollService.submitVote` call: the returned
or thrown result, whether the `votes` insert was issued to the store, and
the row the store persisted (none when the insert was not issued or was
rejected by a constraint). -/
structure VoteCall where
  result : CallOutcome
  insertIssued : Bool
  insertedRow : Option Vote
deriving DecidableEq, Repr

/-- A failure thrown before the code reaches the `votes` insert. -/
def noInsert (e : AppError) : VoteCall :=
  ⟨.err e, false, none⟩

/-- Lines 237-272 of poll-service.ts: resolve the selected option, compute
the vote's `userId` and run the insert, translating a uniqueness-constraint
violation (code 23505 or a duplicate-key/unique-constraint message) into
the 409 duplicate-vote error. `voteUserId` is `user!.id` when
authentication is required (the user is known non-null there) and
`user?.id ?? null` otherwise; both equal `user.map User.id`. -/
def PollService.submitVoteInsert (poll : Poll) (user : Option User)
    (optionIndex : ℚ) (insertError : Option DbError) : VoteCall :=
  match poll.options[optionIndex.num.toNat]? with
  | none => noInsert ⟨"Invalid poll option", 400⟩
  | some selectedOption =>
    if selectedOption.id = "" then noInsert ⟨"Invalid poll option", 400⟩
    else
      let voteUserId : Option String := user.map User.id
      match insertError with
      | some e =>
        if e.code = "23505" ∨ strIncludes e.message "duplicate key" = true
            ∨ strIncludes e.message "unique constraint" = true then
          ⟨.err ⟨"You have already voted in this poll", 409⟩, true, none⟩
        else
          ⟨.err ⟨"Failed to submit vote: " ++ e.message, 500⟩, true, none⟩
      | none =>
        ⟨.ok, true, some ⟨poll.id, voteUserId, selectedOption.id⟩⟩

/-- `PollService.submitVote` (poll-service.ts lines 176-277). Store
responses appear as parameters: `pollLookup` is the `getById` row,
`votesQuery` the existing-votes select (`.error` when the select failed),
`insertError` the outcome of the `votes` insert. The `getUser` transport
error branch (line 190) is not modelled; no claim concerns it. -/
def PollService.submitVote (pollLookup : Option Poll) (user : Option User)
    (optionIndex : ℚ) (now : Int) (votesQuery : Except Unit (List String))
    (insertError : Option DbError) : VoteCall :=
  if ¬ Number.isInteger optionIndex then
    noInsert ⟨"Option index must be an integer", 400⟩
  else
    match pollLookup with
    | none => noInsert ⟨pgNoRowsMessage, 400⟩
    | some poll =>
      if poll.options.length = 0 then
        noInsert ⟨"Poll has no options", 400⟩
      else if optionIndex < 0 ∨ (poll.options.length : ℚ) ≤ optionIndex then
        noInsert ⟨"Option index must be between 0 and "
          ++ toString (poll.options.length - 1), 400⟩
      else if poll.requiresAuth && user.isNone then
        noInsert ⟨"Authentication required to vote in this poll", 401⟩
      else if pollEnded poll now then
        noInsert ⟨"Voting for this poll has ended", 403⟩
      else if poll.allowsMultipleVotes then
        PollService.submitVoteInsert poll user optionIndex insertError
      else
        match votesQuery with
        | .error _ => noInsert ⟨"Failed to check existing votes", 500⟩
        | .ok existingVotes =>
          if existingVotes.length > 0 then
            noInsert ⟨"You have already voted in this poll", 409⟩
          else
            PollService.submitVoteInsert poll user optionIndex insertError

/-- The action-layer `getPollById` currently wired into the pages
(poll-actions.ts lines 308-315): it delegates to `PollService.getById`,
which selects the row by id only. The result is the `{poll, error}` pair
returned to the caller. The caller identity is a parameter to make
explicit that it never influences the result: no private-poll check is
performed on this path. -/
def getPollById (pollLookup : Option Poll) (caller : Option User) :
    Option Poll × Option String :=
  match pollLookup with
  | none => (none, some pgNoRowsMessage)
  | some poll => (some poll, none)

/-- The legacy `getPollById` (poll-actions.ts lines 99-119), superseded by
the service-based version above: it enforces the `private` flag, allowing
only the owner to read a private poll. -/
def getPollByIdLegacy (pollLookup : Option Poll) (caller : Option User) :
    Option Poll × Option String :=
  match pollLookup with
  | none => (none, some pgNoRowsMessage)
  | some poll =>
    if poll.isPrivate then
      match caller with
      | none => (none, some "Unauthorized access to private poll.")
      | some u =>
        if u.id ≠ poll.createdBy then
          (none, some "Unauthorized access to private poll.")
        else (some poll, none)
    else (some poll, none)

/-- Observable outcome of the `updatePoll` action: the `error` field of
the returned object and whether the `polls` update was issued. -/
structure UpdateCall where
  error : Option String
  mutationIssued : Bool
deriving DecidableEq, Repr

/-- The `updatePoll` action (poll-actions.ts lines 341-385). `question` is
the form field (`""` standing for a missing/empty value, both falsy in the
source), `options` the raw form values before the `filter(Boolean)` on
line 345, `pollLookup` the ownership-check select, `updError` the outcome
of the `polls` update. -/
def updatePoll (question : String) (options : List String)
    (user : Option User) (pollLookup : Option Poll)
    (updError : Option String) : UpdateCall :=
  let options := options.filter (fun o => o ≠ "")
  if question = "" ∨ options.length < 2 then
    ⟨some "Please provide a question and at least two options.", false⟩
  else
    match user with
    | none => ⟨some "You must be logged in to update a poll.", false⟩
    | some u =>
      match pollLookup with
      | none => ⟨some pgNoRowsMessage, false⟩
      | some poll =>
        if u.role ≠ some "admin" ∧ poll.createdBy ≠ u.id then
          ⟨some "Unauthorized: Only the poll owner or an admin can update this poll.",
            false⟩
        else
          match updError with
          | some m => ⟨some m, true⟩
          | none => ⟨none, true⟩

/-- `PollService.delete` (poll-service.ts lines 279-311), the body of the
`deletePoll` action. Returns the call outcome and whether the `polls`
delete was issued. A missing poll surfaces the store's no-row error thrown
inside `getById` (the `if (!poll)` branch on line 293 is unreachable). -/
def PollService.delete (user : Option User) (pollLookup : Option Poll)
    (deleteError : Option String) : CallOutcome × Bool :=
  match user with
  | none => (.err ⟨"Not authenticated", 401⟩, false)
  | some u =>
    match pollLookup with
    | none => (.err ⟨pgNoRowsMessage, 400⟩, false)
    | some poll =>
      if poll.createdBy ≠ u.id ∧ u.role ≠ some "admin" then
        (.err ⟨"Unauthorized: Only the poll owner or an admin can delete this poll.",
          403⟩, false)
      else
        match deleteError with
        | some m => (.err ⟨m, 400⟩, true)
        | none => (.ok, true)

/-- Characters stripped by `sanitizeInput` (error-utils.ts line 30):
the set matched by the regex denylist, a backtick being `Char.ofNat 96`,
an apostrophe `Char.ofNat 39` and a double quote `Char.ofNat 34`. -/
def unsafeChars : List Char :=
  ['<', '>', Char.ofNat 34, Char.ofNat 39, Char.ofNat 96]

/-- `String.prototype.trim`: drop leading and trailing whitespace. -/
def jsTrim (s : String) : String :=
  (((s.toList.dropWhile Char.isWhitespace).reverse.dropWhile
    Char.isWhitespace).reverse).asString

/-- `String.prototype.toLowerCase` on the character sets appearing in the
sources. -/
def jsToLower (s : String) : String :=
  (s.toList.map Char.toLower).asString

/-- `sanitizeInput` (error-utils.ts lines 29-31): strip the denylist
characters, then trim. -/
def sanitizeInput (s : String) : String :=
  jsTrim (s.toList.filter (fun c => ¬ c ∈ unsafeChars)).asString

/-- `[...new Set(list)]`: JavaScript `Set` deduplication, keeping the
first occurrence of each element in order. -/
def jsSetDedupAux (seen : List String) : List String → List String
  | [] => []
  | x :: xs =>
    if x ∈ seen then jsSetDedupAux seen xs
    else x :: jsSetDedupAux (x :: seen) xs

/-- Deduplication of a list as done by spreading a JavaScript `Set`. -/
def jsSetDedup (l : List String) : List String :=
  jsSetDedupAux [] l

/-- The option-cleaning pipeline of `PollService.create` (poll-service.ts
lines 93-100): trim, drop empties, lowercase, deduplicate, re-trim. -/
def cleanOptions (options : List String) : List String :=
  (jsSetDedup (((options.map jsTrim).filter
    (fun o => o.length > 0)).map jsToLower)).map jsTrim

/-- Result of `PollService.create`: either the thrown `AppError` or the
texts of the persisted options (the part of the inserted row the claims
are about). -/
inductive CreateOutcome where
  | created (persistedOptions : List String)
  | err (e : AppError)
deriving DecidableEq, Repr

/-- `PollService.create` (poll-service.ts lines 76-157). The per-option
length check throws an index-bearing message in the source; the index is
dropped here since no claim depends on it. `insertError` is the outcome of
the `polls` insert. -/
def PollService.create (question : String) (options : List String)
    (user : Option User) (insertError : Option String) : CreateOutcome :=
  if jsTrim question = "" then .err ⟨"Question is required", 400⟩
  else
    let sanitizedQuestion := jsTrim question
    if sanitizedQuestion.length < 3 then
      .err ⟨"Question must be at least 3 characters long", 400⟩
    else
      let cleanedOptions := cleanOptions options
      if cleanedOptions.length < 2 then
        .err ⟨"At least 2 unique options are required", 400⟩
      else if cleanedOptions.any (fun o => o.length > 200) then
        .err ⟨"Option exceeds maximum length of 200 characters", 400⟩
      else
        match user with
        | none => .err ⟨"Not authenticated", 401⟩
        | some _ =>
          match insertError with
          | some m => .err ⟨m, 400⟩
          | none => .created cleanedOptions

/-- The `createPoll` action (poll-actions.ts lines 254-279): sanitize the
form fields, run the action-level validation, then delegate to
`PollService.create`. Returns the `error` field of the action result and
the options the service persisted (none on failure). -/
def createPoll (question0 : String) (options0 : List String)
    (user : Option User) (insertError : Option String) :
    Option String × Option (List String) :=
  let question := sanitizeInput question0
  let options := (options0.map sanitizeInput).filter (fun o => o ≠ "")
  if question = "" ∨ options.length < 2 then
    (some "Please provide a question and at least two options.", none)
  else if question.length < 5 ∨ question.length > 200 then
    (some "Question must be between 5 and 200 characters.", none)
  else if options.any (fun o => o.length < 1 ∨ o.length > 100) then
    (some "Each option must be between 1 and 100 characters.", none)
  else
    match PollService.create question options user insertError with
    | .err e => (some e.message, none)
    | .created persisted => (none, some persisted)

/-- `AUTH.RATE_LIMIT.WINDOW` (config/constants): 60 * 1000 ms. -/
def RATE_LIMIT_WINDOW : Int := 60 * 1000

/-- `AUTH.RATE_LIMIT.MAX_ATTEMPTS` (config/constants): 5. -/
def RATE_LIMIT_MAX_ATTEMPTS : Nat := 5

/-- `AUTH.VALIDATION.PASSWORD_MIN_LENGTH` (config/constants): 8. -/
def PASSWORD_MIN_LENGTH : Nat := 8

/-- An entry of the rate limiter's map (rate-limiter.ts lines 3-6). -/
structure RateLimitEntry where
  count : Nat
  windowStart : Int
deriving DecidableEq, Repr

/-- The rate limiter's `Map<string, RateLimitEntry>`, as an association
list with first-match lookup. -/
def RateLimiterCache := List (String × RateLimitEntry)

/-- `Map.prototype.set`: bind `k` to `v`, replacing any previous binding. -/
def cacheSet (cache : RateLimiterCache) (k : String) (v : RateLimitEntry) :
    RateLimiterCache :=
  (k, v) :: cache.filter (fun p => p.1 ≠ k)

/-- `RateLimiter.isLimited` (rate-limiter.ts lines 15-33): returns the
boolean answer and the updated cache. A fresh or expired key is recorded
with count 1 and reported unlimited; a live entry is reported limited iff
its count has reached `MAX_ATTEMPTS`. Note that a live entry's count is
not changed by this method. -/
def RateLimiter.isLimited (cache : RateLimiterCache) (key : String)
    (now : Int) : Bool × RateLimiterCache :=
  let currentWindowStart := now - now % RATE_LIMIT_WINDOW
  match cache.lookup key with
  | none => (false, cacheSet cache key ⟨1, currentWindowStart⟩)
  | some entry =>
    if RATE_LIMIT_WINDOW < now - entry.windowStart then
      (false, cacheSet cache key ⟨1, currentWindowStart⟩)
    else
      (decide (RATE_LIMIT_MAX_ATTEMPTS ≤ entry.count), cache)

/-- `RateLimiter.increment` (rate-limiter.ts lines 35-50). No caller in
the sources ever invokes it. -/
def RateLimiter.increment (cache : RateLimiterCache) (key : String)
    (now : Int) : RateLimiterCache :=
  let currentWindowStart := now - now % RATE_LIMIT_WINDOW
  match cache.lookup key with
  | none => cacheSet cache key ⟨1, currentWindowStart⟩
  | some entry =>
    if RATE_LIMIT_WINDOW < now - entry.windowStart then
      cacheSet cache key ⟨1, currentWindowStart⟩
    else
      cacheSet cache key ⟨entry.count + 1, entry.windowStart⟩

/-- `RateLimiter.reset` (rate-limiter.ts lines 52-54): delete the key. No
caller in the sources ever invokes it. -/
def RateLimiter.reset (cache : RateLimiterCache) (key : String) :
    RateLimiterCache :=
  cache.filter (fun p => p.1 ≠ key)

/-- A character admitted by the `[^\s@]` classes of
`AUTH.VALIDATION.EMAIL_REGEX`. -/
def isEmailChar (c : Char) : Bool :=
  ¬ c.isWhitespace ∧ c ≠ '@'

/-- `AUTH.VALIDATION.EMAIL_REGEX.test`: the anchored pattern
`[^\s@]+@[^\s@]+[.][^\s@]+` holds iff the string splits at a unique `@`
into a nonempty local part and a domain, both free of whitespace and `@`,
the domain containing a dot that is neither its first nor its last
character. -/
def emailRegexTest (s : String) : Bool :=
  let cs := s.toList
  let localPart := cs.takeWhile (fun c => c ≠ '@')
  match cs.dropWhile (fun c => c ≠ '@') with
  | [] => false
  | _ :: domain =>
    localPart ≠ [] && localPart.all isEmailChar
      && domain.all isEmailChar
      && (domain.drop 1).dropLast.contains '.'

/-- The punctuation class of `AUTH.VALIDATION.PASSWORD_REGEX`
(config/constants): `! @ # $ % ^ & * ( ) _ + - = [ ] { } ; ' : " \ | , . < > / ?`,
braces, apostrophe, double quote and backslash written via `Char.ofNat`. -/
def passwordSymbols : List Char :=
  ['!', '@', '#', '$', '%', '^', '&', '*', '(', ')', '_', '+', '-', '=',
   '[', ']', Char.ofNat 123, Char.ofNat 125, ';', Char.ofNat 39, ':',
   Char.ofNat 34, Char.ofNat 92, '|', ',', '.', '<', '>', '/', '?']

/-- Modelled from the spec: the password-strength test of spec section 4.3
step 4, i.e. `AUTH.VALIDATION.PASSWORD_REGEX` from config/constants
(`(?=.*[a-z])(?=.*[A-Z])(?=.*\d)(?=.*[symbol]).\x7b8,\x7d`), which the
sources define (and the superseded register action applies) but
`AuthService.register` never invokes: length at least 8 with at least one
lowercase letter, one uppercase letter, one digit and one symbol. -/
def strongPasswordTest (p : String) : Bool :=
  p.length ≥ 8 && p.toList.any Char.isLower && p.toList.any Char.isUpper
    && p.toList.any Char.isDigit && p.toList.any (fun c => c ∈ passwordSymbols)

/-- `AuthService.login` (auth-service.ts lines 8-38). `signInError` is the
outcome of `supabase.auth.signInWithPassword`. Returns the call outcome
and the rate limiter cache after the call. The method consults
`rateLimiter.isLimited` but never calls `increment` or `reset`. -/
def AuthService.login (cache : RateLimiterCache) (email : String)
    (now : Int) (signInError : Option String) :
    CallOutcome × RateLimiterCache :=
  let check := RateLimiter.isLimited cache email now
  if check.1 then
    (.err ⟨"Too many login attempts. Please try again later.", 429⟩, check.2)
  else if ¬ emailRegexTest email then
    (.err ⟨"Invalid email format", 400⟩, check.2)
  else
    match signInError with
    | some m => (.err ⟨"Supabase signIn error: " ++ m, 400⟩, check.2)
    | none => (.ok, check.2)

/-- `AuthService.register` (auth-service.ts lines 40-70). The only
password validation performed is the `PASSWORD_MIN_LENGTH` check;
`AUTH.VALIDATION.PASSWORD_REGEX` is never applied. `signUpError` is the
outcome of `supabase.auth.signUp`. -/
def AuthService.register (email password : String)
    (signUpError : Option String) : CallOutcome :=
  if ¬ emailRegexTest email then .err ⟨"Invalid email format", 400⟩
  else if password.length < PASSWORD_MIN_LENGTH then
    .err ⟨"Password must be at least 8 characters long", 400⟩
  else
    match signUpError with
    | some m => .err ⟨"Supabase signUp error: " ++ m, 400⟩
    | none => .ok

/-!
Interleaving model for concurrent `submitVote` calls (spec sections 5
and 8, poll-service.ts lines 221-270).

Fix one poll with `allowMultipleVotes = false` and one authenticated user,
and consider N concurrent `submitVote` calls for that pair, all with a
valid option index and an open poll. Each call performs two store
accesses, in order:

* the existence check (lines 221-235): if a vote row for the pair exists
  at that moment, the call ends with the 409 duplicate error, else it
  proceeds to the insert;
* the insert (lines 249-270): the store's uniqueness constraint on
  (pollId, userId) rejects it iff a row for the pair already exists at
  that moment, and the 23505 rejection is translated to the same 409
  duplicate error (`PollService.submitVoteInsert`); otherwise the row is
  persisted and the call returns success.

Calls are interchangeable (same poll, user and option), so a global state
is the persisted-row flag plus how many calls are before their check,
between check and insert, finished successfully, or finished with the
duplicate error. A step of the interleaving advances one call by one
store access. -/
structure RaceState where
  rowPresent : Bool
  pending : Nat
  passed : Nat
  ok : Nat
  dup : Nat
deriving DecidableEq, Repr

/-- One scheduler step: some call performs its next store access. -/
inductive RaceStep : RaceState → RaceState → Prop
  | checkDup (s : RaceState) (h : 0 < s.pending) (hrow : s.rowPresent = true) :
      RaceStep s ⟨true, s.pending - 1, s.passed, s.ok, s.dup + 1⟩
  | checkPass (s : RaceState) (h : 0 < s.pending) (hrow : s.rowPresent = false) :
      RaceStep s ⟨false, s.pending - 1, s.passed + 1, s.ok, s.dup⟩
  | insertOk (s : RaceState) (h : 0 < s.passed) (hrow : s.rowPresent = false) :
      RaceStep s ⟨true, s.pending, s.passed - 1, s.ok + 1, s.dup⟩
  | insertDup (s : RaceState) (h : 0 < s.passed) (hrow : s.rowPresent = true) :
      RaceStep s ⟨true, s.pending, s.passed - 1, s.ok, s.dup + 1⟩

/-- Initial state: no vote row for the pair, N calls yet to run. -/
def raceInit (n : Nat) : RaceState :=
  ⟨false, n, 0, 0, 0⟩

/-- Invariant of the interleaving: call count is conserved, the number of
successful calls is 1 exactly when the row is present, and no duplicate
error is produced before the row exists. -/
def RaceInv (n : Nat) (s : RaceState) : Prop :=
  s.pending + s.passed + s.ok + s.dup = n ∧
    s.ok = (if s.rowPresent then 1 else 0) ∧
    (s.rowPresent = false → s.dup = 0)

lemma raceInv_init (n : Nat) : RaceInv n (raceInit n) := by
  refine ⟨by simp [raceInit], by simp [raceInit], fun _ => rfl⟩

lemma raceInv_step {n : Nat} {s s' : RaceState} (hinv : RaceInv n s)
    (hstep : RaceStep s s') : RaceInv n s' := by
  obtain ⟨hsum, hok, hdup⟩ := hinv
  cases hstep with
  | checkDup h hrow =>
    rw [hrow] at hok; simp only [if_pos rfl] at hok
    refine ⟨?_, ?_, fun hfalse => by simp at hfalse⟩
    · dsimp only; omega
    · dsimp only; simp [hok]
  | checkPass h hrow =>
    rw [hrow] at hok; simp only [Bool.false_eq_true, if_neg] at hok
    refine ⟨?_, ?_, fun _ => hdup hrow⟩
    · dsimp only; omega
    · dsimp only; simp [hok]
  | insertOk h hrow =>
    rw [hrow] at hok; simp only [Bool.false_eq_true, if_neg] at hok
    refine ⟨?_, ?_, fun hfalse => by simp at hfalse⟩
    · dsimp only; omega
    · dsimp only; simp [hok]
  | insertDup h hrow =>
    rw [hrow] at hok; simp only [if_pos rfl] at hok
    refine ⟨?_, ?_, fun hfalse => by simp at hfalse⟩
    · dsimp only; omega
    · dsimp only; simp [hok]

lemma raceInv_reachable {n : Nat} {s : RaceState}
    (h : Relation.ReflTransGen RaceStep (raceInit n) s) : RaceInv n s := by
  induction h with
  | refl => exact raceInv_init n
  | tail _ hstep ih => exact raceInv_step ih hstep

/-! Concrete rows and identities used by witnesses and counterexamples. -/

def optYes : PollOption := ⟨"opt-yes", "Yes", 0⟩

def optNo : PollOption := ⟨"opt-no", "No", 0⟩

/-- An open poll owned by user A with the default settings written by
`PollService.create`. -/
def samplePoll : Poll :=
  ⟨"p1", "Tabs or spaces?", [optYes, optNo], "A", none, false,
    some ⟨false, true⟩⟩

/-- A poll whose `endDate` (t = 0) is in the past at `now = 1000`. -/
def endedPoll : Poll :=
  ⟨"p2", "Retro time slot?", [optYes, optNo], "A", some 0, false,
    some ⟨false, true⟩⟩

/-- A poll row whose `settings` column is absent. -/
def noSettingsPoll : Poll :=
  ⟨"p3", "Lunch spot?", [optYes, optNo], "A", none, false, none⟩

/-- A private poll created by user A. -/
def privatePoll : Poll :=
  ⟨"p4", "Offsite location?", [optYes, optNo], "A", none, true,
    some ⟨false, true⟩⟩

def userA : User := ⟨"A", none⟩

def userB : User := ⟨"B", none⟩

/-- A storage uniqueness-constraint violation as Postgres reports it. -/
def dupKeyError : DbError :=
  ⟨"23505", "duplicate key value violates unique constraint"⟩

/-- For an in-range natural option index, an authenticated caller, an open
poll and `allowMultipleVotes` false, `submitVote` runs exactly to the
existing-votes check and behaves as lines 221-235 and 237-272 prescribe. -/
lemma submitVote_reaches_dupCheck (poll : Poll) (u : User) (k : Nat)
    (now : Int) (votesQuery : Except Unit (List String))
    (insertError : Option DbError)
    (hk : k < poll.options.length) (hEnd : pollEnded poll now = false)
    (hMulti : poll.allowsMultipleVotes = false) :
    PollService.submitVote (some poll) (some u) (k : ℚ) now votesQuery
        insertError =
      match votesQuery with
      | .error _ => noInsert ⟨"Failed to check existing votes", 500⟩
      | .ok existingVotes =>
        if existingVotes.length > 0 then
          noInsert ⟨"You have already voted in this poll", 409⟩
        else PollService.submitVoteInsert poll (some u) (k : ℚ) insertError := by
  unfold PollService.submitVote
  have hint : Number.isInteger (k : ℚ) = true := by
    simp [Number.isInteger]
  have hlen0 : ¬ poll.options.length = 0 := by omega
  have hlo : ¬ ((k : ℚ) < 0 ∨ (poll.options.length : ℚ) ≤ (k : ℚ)) := by
    push_neg
    exact ⟨by positivity, by exact_mod_cast hk⟩
  rw [if_neg (by simp [hint])]
  dsimp only
  rw [if_neg hlen0, if_neg hlo]
  simp [hEnd, hMulti]

/-- In the insert phase with a valid index and well-formed option ids, the
outcome is decided by the store's response to the insert, a
uniqueness-constraint violation being mapped to the 409 duplicate error. -/
lemma submitVoteInsert_resolves (poll : Poll) (u : User) (k : Nat)
    (insertError : Option DbError) (hk : k < poll.options.length)
    (hIds : ∀ o ∈ poll.options, o.id ≠ "") :
    PollService.submitVoteInsert poll (some u) (k : ℚ) insertError =
      match insertError with
      | some e =>
        if e.code = "23505" ∨ strIncludes e.message "duplicate key" = true
            ∨ strIncludes e.message "unique constraint" = true then
          ⟨.err ⟨"You have already voted in this poll", 409⟩, true, none⟩
        else
          ⟨.err ⟨"Failed to submit vote: " ++ e.message, 500⟩, true, none⟩
      | none =>
        ⟨.ok, true, some ⟨poll.id, some u.id, (poll.options.get ⟨k, hk⟩).id⟩⟩ := by
  unfold PollService.submitVoteInsert
  have hidx : ((k : ℚ).num.toNat) = k := by
    simp [Rat.num_natCast]
  rw [hidx]
  rw [List.getElem?_eq_getElem hk]
  have hid : ¬ poll.options[k].id = "" :=
    hIds _ (List.getElem_mem hk)
  simp only [hid, if_neg, ite_false]
  rfl

/-- C1: for every poll with `allowMultipleVotes = false` and every
authenticated caller holding an existing vote row on it, `submitVote`
fails with the 409 duplicate-vote error and issues no insert; and when the
insert itself reports a uniqueness-constraint violation (code 23505 or a
duplicate-key/unique-constraint message), `submitVote` returns the same
409 duplicate-vote error rather than a generic failure. Stated for calls
that otherwise reach the duplicate handling: integral in-range option
index, open poll, well-formed option ids. -/
theorem submitVote_duplicate_vote (poll : Poll) (u : User) (k : Nat)
    (now : Int) (votes : List String) (insertError : Option DbError)
    (e : DbError)
    (hMulti : poll.allowsMultipleVotes = false)
    (hk : k < poll.options.length)
    (hEnd : pollEnded poll now = false)
    (hIds : ∀ o ∈ poll.options, o.id ≠ "") :
    (votes ≠ [] →
      PollService.submitVote (some poll) (some u) (k : ℚ) now (.ok votes)
          insertError
        = noInsert ⟨"You have already voted in this poll", 409⟩) ∧
    ((e.code = "23505" ∨ strIncludes e.message "duplicate key" = true
        ∨ strIncludes e.message "unique constraint" = true) →
      PollService.submitVote (some poll) (some u) (k : ℚ) now (.ok [])
          (some e)
        = ⟨.err ⟨"You have already voted in this poll", 409⟩, true, none⟩) := by
  constructor
  · intro hne
    rw [submitVote_reaches_dupCheck poll u k now _ _ hk hEnd hMulti]
    have : votes.length > 0 := List.length_pos.mpr hne
    simp [this]
  · intro he
    rw [submitVote_reaches_dupCheck poll u k now _ _ hk hEnd hMulti]
    simp only [List.length_nil, gt_iff_lt, lt_self_iff_false, if_false]
    rw [submitVoteInsert_resolves poll u k (some e) hk hIds]
    simp [he]

/-- Closed instance of `submitVote_duplicate_vote`: user B votes on the
sample poll while already holding vote row v1, and separately the store
rejects B's insert with a 23505 uniqueness violation. -/
theorem submitVote_duplicate_vote_witness :
    (PollService.submitVote (some samplePoll) (some userB) (0 : ℚ) 500
        (.ok ["v1"]) none
      = noInsert ⟨"You have already voted in this poll", 409⟩) ∧
    (PollService.submitVote (some samplePoll) (some userB) (0 : ℚ) 500
        (.ok []) (some dupKeyError)
      = ⟨.err ⟨"You have already voted in this poll", 409⟩, true, none⟩) := by
  have h := submitVote_duplicate_vote samplePoll userB 0 500 ["v1"] none
    dupKeyError (by decide) (by decide) (by decide) (by decide)
  exact ⟨h.1 (by decide), h.2 (by decide)⟩

/-- C2: for a poll with `allowMultipleVotes = false` and a fixed non-null
user, any complete interleaving of N ≥ 2 concurrent `submitVote` calls for
that pair ends with exactly one persisted vote row, one success and N - 1
duplicate-vote errors: the storage uniqueness constraint, checked at
insert time, is the final authority over the in-application existence
check. -/
theorem concurrent_submitVote_exactly_one_row (n : Nat) (s : RaceState)
    (hn : 2 ≤ n)
    (hreach : Relation.ReflTransGen RaceStep (raceInit n) s)
    (hpending : s.pending = 0) (hpassed : s.passed = 0) :
    s.ok = 1 ∧ s.dup = n - 1 ∧ s.rowPresent = true := by
  obtain ⟨hsum, hok, hdup⟩ := raceInv_reachable hreach
  cases hrow : s.rowPresent with
  | false =>
    rw [hrow] at hok
    simp at hok
    have := hdup hrow
    omega
  | true =>
    rw [hrow] at hok
    simp at hok
    exact ⟨hok, by omega, rfl⟩

/-- Closed instance of `concurrent_submitVote_exactly_one_row`: two calls
both pass the existence check before either writes; the first insert
persists the row, the second is rejected by the constraint. -/
theorem concurrent_submitVote_exactly_one_row_witness :
    (⟨true, 0, 0, 1, 1⟩ : RaceState).ok = 1 ∧
      (⟨true, 0, 0, 1, 1⟩ : RaceState).dup = 2 - 1 ∧
      (⟨true, 0, 0, 1, 1⟩ : RaceState).rowPresent = true := by
  have step1 : RaceStep ⟨false, 2, 0, 0, 0⟩ ⟨false, 1, 1, 0, 0⟩ :=
    RaceStep.checkPass ⟨false, 2, 0, 0, 0⟩ (by decide) rfl
  have step2 : RaceStep ⟨false, 1, 1, 0, 0⟩ ⟨false, 0, 2, 0, 0⟩ :=
    RaceStep.checkPass ⟨false, 1, 1, 0, 0⟩ (by decide) rfl
  have step3 : RaceStep ⟨false, 0, 2, 0, 0⟩ ⟨true, 0, 1, 1, 0⟩ :=
    RaceStep.insertOk ⟨false, 0, 2, 0, 0⟩ (by decide) rfl
  have step4 : RaceStep ⟨true, 0, 1, 1, 0⟩ ⟨true, 0, 0, 1, 1⟩ :=
    RaceStep.insertDup ⟨true, 0, 1, 1, 0⟩ (by decide) rfl
  have hreach :
      Relation.ReflTransGen RaceStep (raceInit 2) ⟨true, 0, 0, 1, 1⟩ :=
    Relation.ReflTransGen.head step1
      (Relation.ReflTransGen.head step2
        (Relation.ReflTransGen.head step3
          (Relation.ReflTransGen.head step4 Relation.ReflTransGen.refl)))
  exact concurrent_submitVote_exactly_one_row 2 ⟨true, 0, 0, 1, 1⟩
    (by decide) hreach rfl rfl

/-- C3 (code bug): the wired get-poll-by-id path returns a private poll to
every caller. For the private poll of user A, the current `getPollById`
(delegating to `PollService.getById`, which selects by id only) hands the
poll to an anonymous caller, to non-owner B, and to A alike, with no
`Unauthorized` error — contradicting the spec's private-poll isolation and
the repository's own SECURITY_AUDIT.md. The superseded legacy
`getPollById` behaves exactly as the claim states. -/
theorem getPollById_ignores_private_flag :
    (∀ caller : Option User,
      getPollById (some privatePoll) caller = (some privatePoll, none)) ∧
    getPollByIdLegacy (some privatePoll) none
      = (none, some "Unauthorized access to private poll.") ∧
    getPollByIdLegacy (some privatePoll) (some userB)
      = (none, some "Unauthorized access to private poll.") ∧
    getPollByIdLegacy (some privatePoll) (some userA)
      = (some privatePoll, none) := by
  refine ⟨fun caller => rfl, by decide, by decide, by decide⟩

/-- C4: `updatePoll` and `deletePoll` called by an authenticated caller
who is neither the poll's owner nor an admin never issue a mutation to the
store, and (for a well-formed update payload) both report the Unauthorized
error. -/
theorem ownership_gate_update_delete (question : String)
    (options : List String) (u : User) (poll : Poll)
    (updError deleteError : Option String)
    (hOwner : poll.createdBy ≠ u.id) (hAdmin : u.role ≠ some "admin") :
    (updatePoll question options (some u) (some poll) updError).mutationIssued
        = false ∧
    (question ≠ "" → 2 ≤ (options.filter (fun o => o ≠ "")).length →
      (updatePoll question options (some u) (some poll) updError).error
        = some "Unauthorized: Only the poll owner or an admin can update this poll.") ∧
    PollService.delete (some u) (some poll) deleteError
      = (.err ⟨"Unauthorized: Only the poll owner or an admin can delete this poll.",
          403⟩, false) := by
  have hgate : u.role ≠ some "admin" ∧ poll.createdBy ≠ u.id :=
    ⟨hAdmin, hOwner⟩
  refine ⟨?_, ?_, ?_⟩
  · unfold updatePoll
    by_cases hq : question = "" ∨ (options.filter (fun o => o ≠ "")).length < 2
    · rw [if_pos hq]
    · rw [if_neg hq]
      dsimp only
      rw [if_pos hgate]
  · intro hq hopt
    unfold updatePoll
    rw [if_neg (by push_neg; exact ⟨hq, by omega⟩)]
    dsimp only
    rw [if_pos hgate]
  · unfold PollService.delete
    dsimp only
    rw [if_pos ⟨hOwner, hAdmin⟩]

/-- Closed instance of `ownership_gate_update_delete`: user B attempts to
update and delete A's sample poll. -/
theorem ownership_gate_update_delete_witness :
    (updatePoll "Tabs or spaces?" ["Yes", "No"] (some userB)
        (some samplePoll) none).mutationIssued = false ∧
    (updatePoll "Tabs or spaces?" ["Yes", "No"] (some userB)
        (some samplePoll) none).error
      = some "Unauthorized: Only the poll owner or an admin can update this poll." ∧
    PollService.delete (some userB) (some samplePoll) none
      = (.err ⟨"Unauthorized: Only the poll owner or an admin can delete this poll.",
          403⟩, false) := by
  have h := ownership_gate_update_delete "Tabs or spaces?" ["Yes", "No"]
    userB samplePoll none none (by decide) (by decide)
  exact ⟨h.1, h.2.1 (by decide) (by decide), h.2.2⟩

/-- C5 counterexample: on `endedPoll` (ended at t = 0, queried at
t = 1000) with the out-of-range option index 5, `submitVote` returns the
400 option-range validation error, not the 403 `VotingClosed` error the
claim requires regardless of option validity: the range check (line 202)
runs before the end-date check (line 216). -/
theorem submitVote_closed_poll_invalid_option_counterexample :
    PollService.submitVote (some endedPoll) (some userB) (5 : ℚ) 1000
        (.ok []) none
      = noInsert ⟨"Option index must be between 0 and 1", 400⟩ ∧
    PollService.submitVote (some endedPoll) (some userB) (5 : ℚ) 1000
        (.ok []) none
      ≠ noInsert ⟨"Voting for this poll has ended", 403⟩ := by
  exact ⟨by decide, by decide⟩

/-- C5 amended: a poll with `endDate` in the past rejects `submitVote`
with the 403 `VotingClosed` error, and issues no insert, whenever the
option index is a valid integral in-range index and the poll's
authentication requirement is met; for an invalid index the 400
validation error takes precedence. -/
theorem submitVote_closed_poll_valid_option (poll : Poll) (u : User)
    (k : Nat) (now : Int) (votesQuery : Except Unit (List String))
    (insertError : Option DbError)
    (hk : k < poll.options.length)
    (hEnd : pollEnded poll now = true) :
    PollService.submitVote (some poll) (some u) (k : ℚ) now votesQuery
        insertError
      = noInsert ⟨"Voting for this poll has ended", 403⟩ := by
  unfold PollService.submitVote
  have hint : Number.isInteger (k : ℚ) = true := by
    simp [Number.isInteger]
  have hlen0 : ¬ poll.options.length = 0 := by omega
  have hlo : ¬ ((k : ℚ) < 0 ∨ (poll.options.length : ℚ) ≤ (k : ℚ)) := by
    push_neg
    exact ⟨by positivity, by exact_mod_cast hk⟩
  rw [if_neg (by simp [hint])]
  dsimp only
  rw [if_neg hlen0, if_neg hlo]
  simp [hEnd]

/-- Closed instance of `submitVote_closed_poll_valid_option`: the valid
index 0 on the ended poll is rejected with the voting-closed error. -/
theorem submitVote_closed_poll_valid_option_witness :
    PollService.submitVote (some endedPoll) (some userB) (0 : ℚ) 1000
        (.ok []) none
      = noInsert ⟨"Voting for this poll has ended", 403⟩ := by
  exact submitVote_closed_poll_valid_option endedPoll userB 0 1000 (.ok [])
    none (by decide) (by decide)

/-- Holds when a `submitVote` call failed with a 400 validation error and
issued no insert (so no vote row can have been created). -/
def failedValidationNoInsert (c : VoteCall) : Bool :=
  match c with
  | ⟨.err e, false, none⟩ => e.statusCode == 400
  | _ => false

/-- C6: for every existing poll, `submitVote` with an option index that is
non-integral, negative, or at least the number of options fails with a 400
validation error and never issues the vote insert, whatever the caller
identity and store responses. -/
theorem submitVote_invalid_option_index (poll : Poll) (user : Option User)
    (optionIndex : ℚ) (now : Int) (votesQuery : Except Unit (List String))
    (insertError : Option DbError)
    (hbad : Number.isInteger optionIndex = false ∨ optionIndex < 0
      ∨ (poll.options.length : ℚ) ≤ optionIndex) :
    failedValidationNoInsert
      (PollService.submitVote (some poll) user optionIndex now votesQuery
        insertError) = true := by
  by_cases hint : Number.isInteger optionIndex = true
  · have hrange : optionIndex < 0 ∨ (poll.options.length : ℚ) ≤ optionIndex := by
      rcases hbad with h | h | h
      · rw [h] at hint; cases hint
      · exact .inl h
      · exact .inr h
    by_cases hlen : poll.options.length = 0
    · unfold PollService.submitVote
      rw [if_neg (by simp [hint])]
      dsimp only
      rw [if_pos hlen]
      rfl
    · unfold PollService.submitVote
      rw [if_neg (by simp [hint])]
      dsimp only
      rw [if_neg hlen, if_pos hrange]
      rfl
  · unfold PollService.submitVote
    rw [if_pos hint]
    rfl

/-- Closed instance of `submitVote_invalid_option_index`: index -1 on the
two-option sample poll. -/
theorem submitVote_invalid_option_index_witness :
    failedValidationNoInsert
      (PollService.submitVote (some samplePoll) (some userB) (-1 : ℚ) 0
        (.ok []) none) = true := by
  exact submitVote_invalid_option_index samplePoll (some userB) (-1) 0
    (.ok []) none (.inr (.inl (by decide)))

/-- Times of five consecutive failed login attempts, all inside the same
60-second rate-limit window. -/
def failedLoginTimes : List Int := [0, 1000, 2000, 3000, 4000]

/-- The limiter cache produced by five consecutive failed logins for
user@example.com starting from an empty cache. -/
def cacheAfterFiveFailures : RateLimiterCache :=
  failedLoginTimes.foldl
    (fun c t =>
      (AuthService.login c "user@example.com" t
        (some "Invalid login credentials")).2)
    []

/-- C7 (code bug): after five failed login attempts for user@example.com
inside one window, the sixth attempt is NOT rate limited: it surfaces the
identity provider's failure, not the 429 error. `AuthService.login` never
calls `RateLimiter.increment` on failure nor `RateLimiter.reset` on
success, so the stored counter is still 1 after the five failures and
`isLimited` never fires. -/
theorem login_sixth_attempt_not_rate_limited :
    (AuthService.login cacheAfterFiveFailures "user@example.com" 5000
        (some "Invalid login credentials")).1
      = .err ⟨"Supabase signIn error: Invalid login credentials", 400⟩ ∧
    (AuthService.login cacheAfterFiveFailures "user@example.com" 5000
        (some "Invalid login credentials")).1
      ≠ .err ⟨"Too many login attempts. Please try again later.", 429⟩ ∧
    List.lookup "user@example.com" cacheAfterFiveFailures = some ⟨1, 0⟩ := by
  refine ⟨by decide, by decide, by decide⟩

/-- C8 (code bug): `AuthService.register` accepts the password
"abc12345", which has no uppercase letter and no symbol, because its only
password validation is the minimum-length check: the configured strength
pattern (`strongPasswordTest`, which rejects "abc12345" and accepts
"Abc123!@") is never applied. The claim's expected `ValidationFailed` does
not occur. -/
theorem register_accepts_weak_password :
    AuthService.register "user@example.com" "abc12345" none = .ok ∧
    strongPasswordTest "abc12345" = false ∧
    strongPasswordTest "Abc123!@" = true ∧
    AuthService.register "user@example.com" "Abc123!@" none = .ok := by
  refine ⟨by decide, by decide, by decide, by decide⟩

/-- C9 counterexample: `createPoll("Q?", ["A","a","B"])` does not yield a
poll at all: the sanitized question "Q?" has length 2, so the action's
5-200 character check rejects it (and the service's own minimum of 3
characters would reject it too) and nothing is persisted. -/
theorem createPoll_short_question_counterexample :
    createPoll "Q?" ["A", "a", "B"] (some userA) none
      = (some "Question must be between 5 and 200 characters.", none) ∧
    PollService.create "Q?" ["A", "a", "B"] (some userA) none
      = .err ⟨"Question must be at least 3 characters long", 400⟩ := by
  refine ⟨by decide, by decide⟩

/-- C9 amended: a question of fewer than 3 trimmed characters (such as
"Q?") is rejected, and for any question passing the length validation the
options ["A","a","B"] are trimmed, lowercased and case-insensitively
deduplicated before the minimum-two-options check, yielding a persisted
poll with exactly the two options ["a","b"]; the full action path behaves
the same for a concrete valid question. -/
theorem createPoll_dedups_options (question : String) (u : User)
    (hq : 3 ≤ (jsTrim question).length) :
    PollService.create question ["A", "a", "B"] (some u) none
      = .created ["a", "b"] ∧
    createPoll "Which fruit?" ["A", "a", "B"] (some userA) none
      = (none, some ["a", "b"]) := by
  constructor
  · unfold PollService.create
    have hne : ¬ jsTrim question = "" := by
      intro heq
      rw [heq] at hq
      have : ("" : String).length = 0 := rfl
      omega
    rw [if_neg hne]
    dsimp only
    rw [if_neg (by omega)]
    rfl
  · decide

/-- Closed instance of `createPoll_dedups_options` at the valid question
"Which fruit?". -/
theorem createPoll_dedups_options_witness :
    PollService.create "Which fruit?" ["A", "a", "B"] (some userA) none
      = .created ["a", "b"] ∧
    createPoll "Which fruit?" ["A", "a", "B"] (some userA) none
      = (none, some ["a", "b"]) := by
  exact createPoll_dedups_options "Which fruit?" userA (by decide)

/-- C10: a stored poll whose `settings` field is absent is voted on under
the strictest policy: `requireAuthentication` defaults to true, so an
anonymous caller is rejected with the 401 authentication-required error,
and `allowMultipleVotes` defaults to false, so the duplicate-vote check is
performed and an existing vote row yields the 409 duplicate error with no
insert. -/
theorem submitVote_missing_settings_strictest (poll : Poll) (u : User)
    (k : Nat) (now : Int) (votes : List String)
    (votesQuery : Except Unit (List String)) (insertError : Option DbError)
    (hset : poll.settings = none)
    (hk : k < poll.options.length) :
    PollService.submitVote (some poll) none (k : ℚ) now votesQuery
        insertError
      = noInsert ⟨"Authentication required to vote in this poll", 401⟩ ∧
    (pollEnded poll now = false → votes ≠ [] →
      PollService.submitVote (some poll) (some u) (k : ℚ) now (.ok votes)
          insertError
        = noInsert ⟨"You have already voted in this poll", 409⟩) := by
  constructor
  · unfold PollService.submitVote
    have hint : Number.isInteger (k : ℚ) = true := by
      simp [Number.isInteger]
    have hlen0 : ¬ poll.options.length = 0 := by omega
    have hlo : ¬ ((k : ℚ) < 0 ∨ (poll.options.length : ℚ) ≤ (k : ℚ)) := by
      push_neg
      exact ⟨by positivity, by exact_mod_cast hk⟩
    rw [if_neg (by simp [hint])]
    dsimp only
    rw [if_neg hlen0, if_neg hlo]
    have hauth : (poll.requiresAuth && (none : Option User).isNone) = true := by
      simp [Poll.requiresAuth, hset]
    rw [if_pos hauth]
  · intro hEnd hne
    have hMulti : poll.allowsMultipleVotes = false := by
      simp [Poll.allowsMultipleVotes, hset]
    rw [submitVote_reaches_dupCheck poll u k now _ _ hk hEnd hMulti]
    have : votes.length > 0 := List.length_pos.mpr hne
    simp [this]

/-- Closed instance of `submitVote_missing_settings_strictest` on the
settings-less poll: the anonymous caller gets the 401, and user B, who
already holds vote row v1, gets the 409. -/
theorem submitVote_missing_settings_strictest_witness :
    PollService.submitVote (some noSettingsPoll) none (0 : ℚ) 500 (.ok [])
        none
      = noInsert ⟨"Authentication required to vote in this poll", 401⟩ ∧
    PollService.submitVote (some noSettingsPoll) (some userB) (0 : ℚ) 500
        (.ok ["v1"]) none
      = noInsert ⟨"You have already voted in this poll", 409⟩ := by
  have h := submitVote_missing_settings_strictest noSettingsPoll userB 0 500
    ["v1"] (.ok []) none rfl (by decide)
  exact ⟨h.1, h.2 (by decide) (by decide)⟩

end AlxPolly
